import Mathlib

/-!
Verification of the clinical checklist application (`Check_list_ocupalli.py`)
against its natural-language specification.

The Python source is shallowly embedded: pure helper methods become Lean
functions, stateful methods on `SistemaClinico` / `GerenciadorHistorico`
become functions that take the relevant state and return the updated state
together with the Python return value.  Python dictionaries (whose keys are
unique) are embedded as association lists in insertion order; Python floats
in the PDF layout arithmetic are embedded as exact rationals (`ℚ`), and
Python `int(x)` on the non-negative quantities appearing there is `⌊x⌋`.
-/

namespace CheckList

/-! ## Validators (`ValidadorAvancado`) -/

/-- Python `str.strip()` on a character list: drop whitespace from both ends. -/
def pyStrip (l : List Char) : List Char :=
  ((l.dropWhile Char.isWhitespace).reverse.dropWhile Char.isWhitespace).reverse

/-- Python `str.split()` with no separator on a character list: the maximal
whitespace-free runs (empty chunks are dropped). -/
def pySplit (l : List Char) : List (List Char) :=
  (l.splitOnP Char.isWhitespace).filter (· ≠ [])

/-- Embedding of `ValidadorAvancado.validar_nome_completo`.
`if not nome or len(nome.strip()) < 3` rejects the empty string or a
stripped name with fewer than 3 characters (interior spaces included in the
count); then `nome.strip().split()` must have at least 2 words, and no
character of the original name may be a digit. -/
def validar_nome_completo (nome : String) : Bool × String :=
  if nome = "" ∨ (pyStrip nome.data).length < 3 then
    (false, "Nome deve ter pelo menos 3 caracteres")
  else
    let palavras := pySplit (pyStrip nome.data)
    if palavras.length < 2 then
      (false, "Digite o nome completo (nome e sobrenome)")
    else if nome.data.any Char.isDigit then
      (false, "Nome não pode conter números")
    else
      (true, "")

/-- Embedding of `ValidadorAvancado.validar_procedimentos_minimos`:
an empty selection fails outright; otherwise every mandatory procedure
missing from the selection is reported. -/
def validar_procedimentos_minimos (procedimentos obrigatorios : List String) :
    Bool × String :=
  if procedimentos = [] then
    (false, "Selecione pelo menos um procedimento")
  else
    let faltantes := obrigatorios.filter (fun p => ¬ procedimentos.contains p)
    if faltantes ≠ [] then
      (false, "Procedimentos obrigatórios faltantes: " ++ String.intercalate ", " faltantes)
    else
      (true, "")

/-! ## CPF validation and formatting (`SistemaClinico.validar_cpf`,
`SistemaClinico.formatar_cpf`) -/

/-- The digit characters of a string, in order: embedding of
`re.sub(r'[^0-9]', '', cpf)`. -/
def digitosCpf (s : String) : List Char :=
  s.data.filter Char.isDigit

/-- Numeric value of a digit character (`int(c)` on a digit). -/
def digitoVal (c : Char) : ℕ :=
  c.toNat - '0'.toNat

/-- The check-digit step of `validar_cpf`: `resto = 11 - (soma % 11)`,
with 10 and 11 mapped to 0. -/
def dvResto (soma : ℕ) : ℕ :=
  let r := 11 - soma % 11
  if r = 10 ∨ r = 11 then 0 else r

/-- First weighted sum of `validar_cpf`:
`sum(int(cpf[i]) * (10 - i) for i in range(9))`. -/
def somaPonderada1 (d : List Char) : ℕ :=
  (List.range 9).foldl (fun acc i => acc + digitoVal (d.getD i '0') * (10 - i)) 0

/-- Second weighted sum of `validar_cpf`:
`sum(int(cpf[i]) * (11 - i) for i in range(10))`. -/
def somaPonderada2 (d : List Char) : ℕ :=
  (List.range 10).foldl (fun acc i => acc + digitoVal (d.getD i '0') * (11 - i)) 0

/-- Embedding of `SistemaClinico.validar_cpf`: strip non-digits, reject
length ≠ 11 or all-identical digits (`cpf == cpf[0] * 11`), then check the
two check digits against positions 9 and 10. -/
def validar_cpf (cpf : String) : Bool :=
  let d := digitosCpf cpf
  if d.length ≠ 11 ∨ d = List.replicate 11 (d.headD '0') then false
  else if dvResto (somaPonderada1 d) ≠ digitoVal (d.getD 9 '0') then false
  else if dvResto (somaPonderada2 d) ≠ digitoVal (d.getD 10 '0') then false
  else true

/-- The masking cases of `formatar_cpf`, on the stripped digit list
(Python slices `cpf[:3]`, `cpf[3:6]`, `cpf[6:9]`, `cpf[9:]`, `cpf[9:11]`
become `take`/`drop`). -/
def mascaraCpf (d : List Char) : String :=
  if d.length ≤ 3 then ⟨d⟩
  else if d.length ≤ 6 then
    ⟨d.take 3 ++ '.' :: d.drop 3⟩
  else if d.length ≤ 9 then
    ⟨d.take 3 ++ '.' :: (d.drop 3).take 3 ++ '.' :: d.drop 6⟩
  else if d.length ≤ 11 then
    ⟨d.take 3 ++ '.' :: (d.drop 3).take 3 ++ '.' :: (d.drop 6).take 3 ++ '-' :: d.drop 9⟩
  else
    ⟨d.take 3 ++ '.' :: (d.drop 3).take 3 ++ '.' :: (d.drop 6).take 3 ++ '-' :: (d.drop 9).take 2⟩

/-- Embedding of `SistemaClinico.formatar_cpf`: strip non-digits, then mask. -/
def formatar_cpf (cpf : String) : String :=
  mascaraCpf (digitosCpf cpf)

/-! ## Procedure catalog (`SistemaClinico`)

`self.procedimentos_db` is a Python dict mapping a procedure name to
`{"requer_laudo": bool}`; since the payload dict only ever holds that one
key, it is embedded as a `Bool`.  The dict itself is embedded as an
association list in insertion order; Python guarantees unique keys, so on
reachable states each key occurs at most once and the operations below
coincide with the dict operations. -/

/-- The catalog state: `procedimentos_db` as an insertion-ordered
association list from name to the `requer_laudo` flag. -/
abbrev CatalogoDb := List (String × Bool)

/-- Dictionary lookup `db.get(k)` on the association-list embedding. -/
def dictGet (k : String) : CatalogoDb → Option Bool
  | [] => none
  | (k', v) :: t => if k' = k then some v else dictGet k t

/-- Membership test `k in db`. -/
def dictMem (db : CatalogoDb) (k : String) : Bool :=
  (dictGet k db).isSome

/-- Dictionary deletion `del db[k]`: removes the entry with key `k`
(keys are unique on reachable states). -/
def dictDel : CatalogoDb → String → CatalogoDb
  | [], _ => []
  | (k', v) :: t, k => if k' = k then dictDel t k else (k', v) :: dictDel t k

/-- Dictionary assignment `db[k] = v`: updates the value in place when the
key exists (keeping its position), otherwise appends the new entry at the
end, as Python dicts do. -/
def dictSet : CatalogoDb → String → Bool → CatalogoDb
  | [], k, v => [(k, v)]
  | (k', w) :: t, k, v => if k' = k then (k, v) :: t else (k', w) :: dictSet t k v

/-- Embedding of `SistemaClinico.procedimento_requer_laudo`:
`self.procedimentos_db.get(procedimento, {}).get("requer_laudo", False)`. -/
def procedimento_requer_laudo (db : CatalogoDb) (procedimento : String) : Bool :=
  (dictGet procedimento db).getD false

/-- Embedding of `SistemaClinico.adicionar_procedimento`: inserts with
`requer_laudo = False` when the name is non-empty and not yet present;
returns whether the insertion happened, with the updated catalog. -/
def adicionar_procedimento (db : CatalogoDb) (procedimento : String) :
    Bool × CatalogoDb :=
  if procedimento ≠ "" ∧ dictMem db procedimento = false then
    (true, db ++ [(procedimento, false)])
  else
    (false, db)

/-- Embedding of `SistemaClinico.remover_procedimento_db`: deletes the key
when present.  The mandatory list is not touched. -/
def remover_procedimento_db (db : CatalogoDb) (procedimento : String) :
    Bool × CatalogoDb :=
  if dictMem db procedimento then (true, dictDel db procedimento)
  else (false, db)

/-- Embedding of `SistemaClinico.alternar_obrigatorio` on
`self.procedimentos_obrigatorios`: removes the name when present, appends it
otherwise; always returns `True`.  The catalog is not consulted. -/
def alternar_obrigatorio (obrigatorios : List String) (procedimento : String) :
    List String × Bool :=
  if procedimento ∈ obrigatorios then (obrigatorios.erase procedimento, true)
  else (obrigatorios ++ [procedimento], true)

/-- Embedding of `SistemaClinico.editar_procedimento_db`.  Guard:
`procedimento_antigo in self.procedimentos_db and procedimento_novo`
(non-empty).  On success the payload moves to the new key, and the first
occurrence of the old name in the mandatory list is replaced in place.
Returns (result, new catalog, new mandatory list). -/
def editar_procedimento_db (db : CatalogoDb) (obrigatorios : List String)
    (antigo novo : String) : Bool × CatalogoDb × List String :=
  if dictMem db antigo = true ∧ novo ≠ "" then
    let dados := (dictGet antigo db).getD false
    let db1 := dictDel db antigo
    let db2 := dictSet db1 novo dados
    let obrigatorios2 :=
      if antigo ∈ obrigatorios then
        obrigatorios.set (obrigatorios.indexOf antigo) novo
      else obrigatorios
    (true, db2, obrigatorios2)
  else
    (false, db, obrigatorios)

/-- The three baseline names of
`_garantir_procedimentos_obrigatorios_completos`. -/
def obrigatoriosPadrao : List String :=
  ["Exame Clínico", "Faturamento", "Triagem"]

/-- One step of the reconciliation loop over the mandatory list: append the
baseline name when absent. -/
def insereObrigatorio (acc : List String) (b : String) : List String :=
  if b ∈ acc then acc else acc ++ [b]

/-- One step of the reconciliation loop over the catalog: insert the baseline
name with `requer_laudo = False` when absent. -/
def insereProcedimento (acc : CatalogoDb) (b : String) : CatalogoDb :=
  if dictMem acc b then acc else acc ++ [(b, false)]

/-- Embedding of `SistemaClinico._garantir_procedimentos_obrigatorios_completos`
(startup reconciliation): appends each missing baseline name to the mandatory
list, then inserts each missing baseline name into the catalog with
`requer_laudo = False`.  Returns (catalog, mandatory list). -/
def garantir_procedimentos_obrigatorios (db : CatalogoDb)
    (obrigatorios : List String) : CatalogoDb × List String :=
  (obrigatoriosPadrao.foldl insereProcedimento db,
   obrigatoriosPadrao.foldl insereObrigatorio obrigatorios)

/-- The invariant of §3 of the spec: every name in the mandatory list exists
as a key of the catalog. -/
def invarianteObrigatorios (db : CatalogoDb) (obrigatorios : List String) : Prop :=
  ∀ p ∈ obrigatorios, dictMem db p = true

instance (db : CatalogoDb) (obrigatorios : List String) :
    Decidable (invarianteObrigatorios db obrigatorios) :=
  List.decidableBAll _ obrigatorios

/-! ## Record store (`GerenciadorHistorico`) -/

/-- One record of `historico_checklists.json`, as built by
`adicionar_checklist`. -/
structure Registro where
  id : ℕ
  timestamp : String
  data_formatada : String
  nome : String
  cpf : String
  tipo_exame : String
  procedimentos : List String
  arquivo_pdf : String
  editado : Bool
  historico_edicoes : List String
deriving Repr, DecidableEq

/-- Embedding of `GerenciadorHistorico.adicionar_checklist`.  The two
`datetime.now()` stamps are ambient inputs and are passed as parameters;
`id` is `len(self.historico) + 1`, the name is stripped, the procedure list
is copied, and the new record is appended.  Returns the updated store and
the Python return value `novo_registro['id']`. -/
def adicionar_checklist (historico : List Registro)
    (nome cpf tipo_exame : String) (procedimentos : List String)
    (arquivo_pdf timestamp data_formatada : String) : List Registro × ℕ :=
  let novo : Registro :=
    { id := historico.length + 1
      timestamp := timestamp
      data_formatada := data_formatada
      nome := ⟨pyStrip nome.data⟩
      cpf := cpf
      tipo_exame := tipo_exame
      procedimentos := procedimentos
      arquivo_pdf := arquivo_pdf
      editado := false
      historico_edicoes := [] }
  (historico ++ [novo], novo.id)

/-- Ids are the 1-based insertion ranks: the record at 0-based position `i`
has id `i + 1`. -/
def idsSequenciais (historico : List Registro) : Prop :=
  ∀ i (h : i < historico.length), (historico.get ⟨i, h⟩).id = i + 1

/-! ## Ordering rule (`GerenciadorInterface._ordenar_procedimentos`) -/

/-- Embedding of `_ordenar_procedimentos`: on a non-empty selection, remove
the first occurrence of `"Triagem"` and of `"Faturamento"` when present,
then put `"Triagem"` back at the front and `"Faturamento"` at the end. -/
def ordenar_procedimentos (l : List String) : List String :=
  if l = [] then l
  else
    let temTriagem := "Triagem" ∈ l
    let temFaturamento := "Faturamento" ∈ l
    let l1 := if temTriagem then l.erase "Triagem" else l
    let l2 := if temFaturamento then l1.erase "Faturamento" else l1
    let l3 := if temTriagem then "Triagem" :: l2 else l2
    if temFaturamento then l3 ++ ["Faturamento"] else l3

/-! ## PDF layout (`SistemaClinico.gerar_pdf_checklist`)

The sizing arithmetic of `gerar_pdf_checklist` runs on Python floats; it is
embedded over exact rationals.  The A4 page height of `reportlab` is
`297 * 72 / 25.4` points, i.e. `106920 / 127`; `int(x)` on the non-negative
quantities below is `⌊x⌋`. -/

/-- A4 page height in points (`reportlab`'s `A4[1]`, `297 * mm`). -/
def alturaA4 : ℚ := 106920 / 127

/-- Start of the procedure body: `y_inicio = height - 270`. -/
def y_inicio : ℚ := alturaA4 - 270

/-- Reserved footer margin: `y_final = 80`. -/
def y_final : ℚ := 80

/-- Available vertical space: `espaco_disponivel = y_inicio - y_final`. -/
def espaco_disponivel : ℚ := y_inicio - y_final

/-- Embedding of the inner `calcular_espaco_necessario`: 25 points per
procedure, 20 more when it requires a report, plus 10 between items. -/
def calcular_espaco_necessario (db : CatalogoDb)
    (procedimentos_selecionados : List String) : ℚ :=
  procedimentos_selecionados.foldl
    (fun acc proc =>
      acc + 25 + (if procedimento_requer_laudo db proc then 20 else 0) + 10) 0

/-- The eight sizes computed by the adaptive-sizing block of
`gerar_pdf_checklist`. -/
structure Tamanhos where
  fonte_numero : ℤ
  fonte_procedimento : ℤ
  fonte_subitem : ℤ
  espaco_procedimento : ℤ
  espaco_subitem : ℤ
  espaco_extra : ℤ
  tamanho_checkbox : ℤ
  tamanho_subcheckbox : ℤ
deriving Repr, DecidableEq

/-- Embedding of the adaptive-sizing block: when the required space exceeds
the available space, every size is scaled by
`fator_escala = espaco_disponivel / espaco_necessario` and clamped from
below at its per-element floor; otherwise the nominal sizes are used. -/
def calcular_tamanhos (db : CatalogoDb)
    (procedimentos_selecionados : List String) : Tamanhos :=
  let espaco_necessario := calcular_espaco_necessario db procedimentos_selecionados
  if espaco_necessario > espaco_disponivel then
    let fator_escala := espaco_disponivel / espaco_necessario
    { fonte_numero := max 10 ⌊14 * fator_escala⌋
      fonte_procedimento := max 9 ⌊12 * fator_escala⌋
      fonte_subitem := max 8 ⌊10 * fator_escala⌋
      espaco_procedimento := max 18 ⌊25 * fator_escala⌋
      espaco_subitem := max 15 ⌊20 * fator_escala⌋
      espaco_extra := max 5 ⌊10 * fator_escala⌋
      tamanho_checkbox := max 12 ⌊15 * fator_escala⌋
      tamanho_subcheckbox := max 10 ⌊12 * fator_escala⌋ }
  else
    { fonte_numero := 14
      fonte_procedimento := 12
      fonte_subitem := 10
      espaco_procedimento := 25
      espaco_subitem := 20
      espaco_extra := 10
      tamanho_checkbox := 15
      tamanho_subcheckbox := 12 }

/-- Total vertical space consumed by the drawing loop: for each procedure
`y_position` decreases by `espaco_procedimento`, by `espaco_subitem` when a
report sub-row is drawn, and by `espaco_extra`. -/
def espaco_consumido (db : CatalogoDb)
    (procedimentos_selecionados : List String) (t : Tamanhos) : ℤ :=
  procedimentos_selecionados.foldl
    (fun acc proc =>
      acc + t.espaco_procedimento +
        (if procedimento_requer_laudo db proc then t.espaco_subitem else 0) +
        t.espaco_extra) 0


-- C10
/-- C10: the mandatory-procedures validator rejects an empty selection with
the dedicated "select at least one procedure" failure for every mandatory
list, including the empty one. -/
theorem validar_procedimentos_minimos_rejeita_vazio (obrigatorios : List String) :
    validar_procedimentos_minimos [] obrigatorios =
      (false, "Selecione pelo menos um procedimento") := rfl

-- C7
/-- C7: for every store state with n records, `adicionar_checklist` returns
id = n + 1 for the appended record, and it preserves the invariant that every
record's id equals its 1-based insertion position; hence k appends to the
empty store yield ids 1, ..., k in order. -/
theorem adicionar_checklist_ids (historico : List Registro)
    (nome cpf tipo_exame : String) (procedimentos : List String)
    (arquivo_pdf timestamp data_formatada : String) :
    (adicionar_checklist historico nome cpf tipo_exame procedimentos
        arquivo_pdf timestamp data_formatada).2 = historico.length + 1 ∧
    (idsSequenciais historico →
      idsSequenciais (adicionar_checklist historico nome cpf tipo_exame
        procedimentos arquivo_pdf timestamp data_formatada).1) := by
  constructor
  · rfl
  · intro hseq i hi
    simp only [adicionar_checklist, List.length_append, List.length_singleton] at hi
    by_cases hlt : i < historico.length
    · have := hseq i hlt
      simp only [adicionar_checklist]
      rw [List.get_eq_getElem, List.getElem_append_left hlt]
      simpa using this
    · have hieq : i = historico.length := by omega
      subst hieq
      simp only [adicionar_checklist]
      rw [List.get_eq_getElem, List.getElem_append_right (le_refl _)]
      simp

/-- Witness for C7: a concrete append to the empty store returns id 1 and
yields a store with sequential ids. -/
theorem adicionar_checklist_ids_witness :
    (adicionar_checklist [] "João Silva" "123.456.789-09" "Admissional"
      ["Triagem"] "f.pdf" "ts" "dt").2 = 1 ∧
    idsSequenciais (adicionar_checklist [] "João Silva" "123.456.789-09"
      "Admissional" ["Triagem"] "f.pdf" "ts" "dt").1 :=
  ⟨(adicionar_checklist_ids [] "João Silva" "123.456.789-09" "Admissional"
      ["Triagem"] "f.pdf" "ts" "dt").1,
   (adicionar_checklist_ids [] "João Silva" "123.456.789-09" "Admissional"
      ["Triagem"] "f.pdf" "ts" "dt").2
      (fun i hi => absurd hi (Nat.not_lt_zero i))⟩



-- C8 counterexample
/-- C8 counterexample: the name "a b" has only 2 non-space characters, so the
claim says validation must fail, yet `validar_nome_completo` accepts it
(the code measures `len(nome.strip())`, which counts interior spaces). -/
theorem validar_nome_contraexemplo :
    (validar_nome_completo "a b").1 = true ∧
    (("a b").data.filter (fun c => ¬ c.isWhitespace)).length < 3 := by decide

-- C8 amended
/-- C8 (amended): the name validator succeeds exactly when the name is
non-empty, its stripped form has at least 3 characters (interior spaces
included in the count), it has at least two whitespace-separated words, and
no character is a digit. -/
theorem validar_nome_amended (nome : String) :
    (validar_nome_completo nome).1 = true ↔
      (nome ≠ "" ∧ 3 ≤ (pyStrip nome.data).length ∧
       2 ≤ (pySplit (pyStrip nome.data)).length ∧
       nome.data.any Char.isDigit = false) := by
  simp only [validar_nome_completo]
  split_ifs with h1 h2 h3
  · simp only [Bool.false_eq_true, false_iff]
    rintro ⟨hne, hlen, -, -⟩
    rcases h1 with h | h
    · exact hne h
    · exact absurd hlen (not_le.mpr h)
  · simp only [Bool.false_eq_true, false_iff]
    rintro ⟨-, -, hpal, -⟩
    exact absurd hpal (not_le.mpr h2)
  · simp only [Bool.false_eq_true, false_iff]
    rintro ⟨-, -, -, hdig⟩
    rw [h3] at hdig
    exact Bool.true_eq_false ▸ hdig
  · push_neg at h1
    simp only [true_iff]
    exact ⟨h1.1, h1.2, not_lt.mp h2, Bool.not_eq_true _ ▸ h3⟩

/-- Witness for the amended C8 at a concrete valid name. -/
theorem validar_nome_amended_witness :
    (validar_nome_completo "Maria da Silva").1 = true :=
  (validar_nome_amended "Maria da Silva").mpr (by decide)

-- helper iff for C5
/-- Characterization of `validar_cpf`: it succeeds exactly on digit-stripped
forms of length 11, not all-identical, whose two check digits match. -/
theorem validar_cpf_eq_true_iff (s : String) :
    validar_cpf s = true ↔
      ((digitosCpf s).length = 11 ∧
       digitosCpf s ≠ List.replicate 11 ((digitosCpf s).headD '0') ∧
       dvResto (somaPonderada1 (digitosCpf s)) =
         digitoVal ((digitosCpf s).getD 9 '0') ∧
       dvResto (somaPonderada2 (digitosCpf s)) =
         digitoVal ((digitosCpf s).getD 10 '0')) := by
  simp only [validar_cpf]
  split_ifs with h1 h2 h3
  · simp only [Bool.false_eq_true, false_iff]
    rintro ⟨hlen, hrep, -, -⟩
    rcases h1 with h | h
    · exact h hlen
    · exact hrep h
  · simp only [Bool.false_eq_true, false_iff]
    rintro ⟨-, -, hc1, -⟩
    exact h2 hc1
  · simp only [Bool.false_eq_true, false_iff]
    rintro ⟨-, -, -, hc2⟩
    exact h3 hc2
  · push_neg at h1
    simp only [true_iff]
    exact ⟨h1.1, h1.2, not_not.mp h2, not_not.mp h3⟩

-- C5
/-- C5: `validar_cpf` returns false whenever the digit-stripped form has
length different from 11 or consists of 11 identical digits, and otherwise
returns true exactly when the two weighted-sum check digits (weights 10
down to 2, then 11 down to 2, with `11 - soma % 11` remainders 10 and 11
mapped to 0) match the trailing two digits. -/
theorem validar_cpf_spec (s : String) :
    ((digitosCpf s).length ≠ 11 → validar_cpf s = false) ∧
    (digitosCpf s = List.replicate 11 ((digitosCpf s).headD '0') →
      validar_cpf s = false) ∧
    ((digitosCpf s).length = 11 →
      digitosCpf s ≠ List.replicate 11 ((digitosCpf s).headD '0') →
      (validar_cpf s = true ↔
        (dvResto (somaPonderada1 (digitosCpf s)) =
            digitoVal ((digitosCpf s).getD 9 '0') ∧
         dvResto (somaPonderada2 (digitosCpf s)) =
            digitoVal ((digitosCpf s).getD 10 '0')))) := by
  have h := validar_cpf_eq_true_iff s
  refine ⟨?_, ?_, ?_⟩
  · intro hlen
    cases hb : validar_cpf s
    · rfl
    · exact absurd (h.mp hb).1 hlen
  · intro hrep
    cases hb : validar_cpf s
    · rfl
    · exact absurd hrep (h.mp hb).2.1
  · intro hlen hrep
    rw [h]
    exact ⟨fun ⟨_, _, c1, c2⟩ => ⟨c1, c2⟩, fun ⟨c1, c2⟩ => ⟨hlen, hrep, c1, c2⟩⟩

/-- Witness for C5: 12345678909 validates; 11111111111 and a short string
do not. -/
theorem validar_cpf_spec_witness :
    validar_cpf "12345678909" = true ∧
    validar_cpf "11111111111" = false ∧
    validar_cpf "123456789" = false :=
  ⟨((validar_cpf_spec "12345678909").2.2 (by decide) (by decide)).mpr (by decide),
   (validar_cpf_spec "11111111111").2.1 (by decide),
   (validar_cpf_spec "123456789").1 (by decide)⟩


theorem digitosCpf_mk (l : List Char) :
    digitosCpf ⟨l⟩ = l.filter Char.isDigit := rfl

theorem digitosCpf_sao_digitos (s : String) :
    ∀ c ∈ digitosCpf s, c.isDigit = true := fun _ hc =>
  List.of_mem_filter hc

/-- Splitting the first 11 elements of a list at positions 3, 6 and 9. -/
theorem take11_decomposto (d : List Char) :
    d.take 11 = d.take 3 ++ (d.drop 3).take 3 ++ (d.drop 6).take 3 ++ (d.drop 9).take 2 := by
  rw [show (11 : ℕ) = 3 + 8 from rfl, List.take_add,
      show (8 : ℕ) = 3 + 5 from rfl, List.take_add,
      show (5 : ℕ) = 3 + 2 from rfl, List.take_add,
      List.drop_drop, List.drop_drop]
  simp [List.append_assoc]

/-- The digits of a masked digit list are its first 11 digits. -/
theorem digitosCpf_mascaraCpf (d : List Char) (hd : ∀ c ∈ d, c.isDigit = true) :
    digitosCpf (mascaraCpf d) = d.take 11 := by
  have htk : ∀ n, (d.take n).filter Char.isDigit = d.take n := fun n =>
    List.filter_eq_self.mpr (fun c hc => hd c (List.mem_of_mem_take hc))
  have hdr : ∀ n, (d.drop n).filter Char.isDigit = d.drop n := fun n =>
    List.filter_eq_self.mpr (fun c hc => hd c (List.mem_of_mem_drop hc))
  have hdt : ∀ m n, ((d.drop m).take n).filter Char.isDigit = (d.drop m).take n :=
    fun m n => List.filter_eq_self.mpr
      (fun c hc => hd c (List.mem_of_mem_drop (List.mem_of_mem_take hc)))
  have hdot : ('.'.isDigit : Bool) = false := by decide
  have hdash : ('-'.isDigit : Bool) = false := by decide
  unfold mascaraCpf
  split_ifs with h1 h2 h3 h4
  · rw [digitosCpf_mk, List.filter_eq_self.mpr hd,
        show d.take 11 = d from List.take_of_length_le (by omega)]
  · rw [digitosCpf_mk, show d.take 11 = d from List.take_of_length_le (by omega)]
    simp only [List.filter_append, List.filter_cons, hdot, Bool.false_eq_true,
      if_false, htk, hdr]
    exact List.take_append_drop 3 d
  · rw [digitosCpf_mk, show d.take 11 = d from List.take_of_length_le (by omega)]
    simp only [List.filter_append, List.filter_cons, hdot, Bool.false_eq_true,
      if_false, htk, hdr, hdt]
    rw [show (6 : ℕ) = 3 + 3 from rfl, ← List.drop_drop,
        List.append_assoc, List.take_append_drop, List.take_append_drop]
  · rw [digitosCpf_mk, show d.take 11 = d from List.take_of_length_le (by omega)]
    simp only [List.filter_append, List.filter_cons, hdot, hdash,
      Bool.false_eq_true, if_false, htk, hdr, hdt]
    rw [show (9 : ℕ) = 6 + 3 from rfl, ← List.drop_drop,
        List.append_assoc, List.append_assoc, List.take_append_drop,
        show (6 : ℕ) = 3 + 3 from rfl, ← List.drop_drop,
        List.take_append_drop, List.take_append_drop]
  · rw [digitosCpf_mk]
    simp only [List.filter_append, List.filter_cons, hdot, hdash,
      Bool.false_eq_true, if_false, htk, hdt]
    rw [take11_decomposto]

/-- Masking ignores digits beyond the 11th. -/
theorem mascaraCpf_take11 (d : List Char) :
    mascaraCpf (d.take 11) = mascaraCpf d := by
  by_cases h : d.length ≤ 11
  · rw [List.take_of_length_le h]
  · push_neg at h
    have hlen : (d.take 11).length = 11 := by
      rw [List.length_take]; omega
    have e3 : (d.take 11).take 3 = d.take 3 := by
      rw [List.take_take]; norm_num
    have e33 : ((d.take 11).drop 3).take 3 = (d.drop 3).take 3 := by
      rw [List.drop_take, List.take_take]; norm_num
    have e63 : ((d.take 11).drop 6).take 3 = (d.drop 6).take 3 := by
      rw [List.drop_take, List.take_take]; norm_num
    have e9 : (d.take 11).drop 9 = (d.drop 9).take 2 := by
      rw [List.drop_take]
    unfold mascaraCpf
    rw [hlen]
    split_ifs with h1 h2 h3 h4 <;> try omega
    rw [e3, e33, e63, e9]

/-- The formatter only depends on the stripped digits. -/
theorem formatar_cpf_idem (s : String) :
    formatar_cpf (formatar_cpf s) = formatar_cpf s := by
  unfold formatar_cpf
  rw [digitosCpf_mascaraCpf (digitosCpf s) (digitosCpf_sao_digitos s),
      mascaraCpf_take11]



/-- C6: the national-ID formatter masks progressively (123 -> 123,
123456 -> 123.456, 123456789 -> 123.456.789, 12345678909 -> 123.456.789-09)
and is idempotent on every input string. -/
theorem formatar_cpf_progressivo_idempotente :
    formatar_cpf "123" = "123" ∧
    formatar_cpf "123456" = "123.456" ∧
    formatar_cpf "123456789" = "123.456.789" ∧
    formatar_cpf "12345678909" = "123.456.789-09" ∧
    ∀ s : String, formatar_cpf (formatar_cpf s) = formatar_cpf s :=
  ⟨by decide, by decide, by decide, by decide, formatar_cpf_idem⟩

/-- C9: for every input whose digit-stripped form has more than 11 digits,
`formatar_cpf` silently truncates to the first 11 digits and returns them
fully masked as XXX.XXX.XXX-XX (a 14-character string); digits beyond the
11th are discarded rather than rejected. -/
theorem formatar_cpf_trunca (s : String) (h : 11 < (digitosCpf s).length) :
    formatar_cpf s =
      ⟨(digitosCpf s).take 3 ++ '.' :: ((digitosCpf s).drop 3).take 3 ++
        '.' :: ((digitosCpf s).drop 6).take 3 ++ '-' :: ((digitosCpf s).drop 9).take 2⟩ ∧
    digitosCpf (formatar_cpf s) = (digitosCpf s).take 11 ∧
    (formatar_cpf s).length = 14 := by
  refine ⟨?_, ?_, ?_⟩
  · unfold formatar_cpf mascaraCpf
    split_ifs with h1 h2 h3 h4 <;> try omega
    rfl
  · unfold formatar_cpf
    rw [digitosCpf_mascaraCpf (digitosCpf s) (digitosCpf_sao_digitos s)]
  · unfold formatar_cpf mascaraCpf
    split_ifs with h1 h2 h3 h4 <;> try omega
    show ((digitosCpf s).take 3 ++ '.' :: ((digitosCpf s).drop 3).take 3 ++
      '.' :: ((digitosCpf s).drop 6).take 3 ++ '-' :: ((digitosCpf s).drop 9).take 2).length = 14
    simp only [List.length_append, List.length_cons, List.length_take,
      List.length_drop]
    omega

/-- Witness for C9 at a 13-digit input. -/
theorem formatar_cpf_trunca_witness :
    digitosCpf (formatar_cpf "1234567890123") = (digitosCpf "1234567890123").take 11 ∧
    (formatar_cpf "1234567890123").length = 14 :=
  ⟨(formatar_cpf_trunca "1234567890123" (by decide)).2.1,
   (formatar_cpf_trunca "1234567890123" (by decide)).2.2⟩

/-- A procedure that is neither the triage nor the billing special name. -/
def naoEspecial (x : String) : Bool :=
  x ≠ "Triagem" ∧ x ≠ "Faturamento"

theorem filter_erase_of_neg {p : String → Bool} {a : String}
    (hpa : p a = false) : ∀ l : List String, (l.erase a).filter p = l.filter p
  | [] => rfl
  | b :: t => by
    rw [List.erase_cons]
    by_cases hba : b = a
    · subst hba
      simp only [beq_self_eq_true, if_true]
      rw [List.filter_cons_of_neg (by simp [hpa])]
    · rw [if_neg (by simp [hba])]
      by_cases hpb : p b = true
      · rw [List.filter_cons_of_pos hpb, List.filter_cons_of_pos hpb,
          filter_erase_of_neg hpa t]
      · rw [List.filter_cons_of_neg (by simpa using hpb),
          List.filter_cons_of_neg (by simpa using hpb),
          filter_erase_of_neg hpa t]

/-- C4: `_ordenar_procedimentos` yields a permutation of the input in which
"Triagem", when present, occupies position 0, "Faturamento", when present,
occupies the last position, and all other procedures keep their original
relative order. -/
theorem ordenar_spec (l : List String) :
    (ordenar_procedimentos l).Perm l ∧
    ("Triagem" ∈ l → (ordenar_procedimentos l).head? = some "Triagem") ∧
    ("Faturamento" ∈ l → (ordenar_procedimentos l).getLast? = some "Faturamento") ∧
    (ordenar_procedimentos l).filter naoEspecial = l.filter naoEspecial := by
  by_cases hnil : l = []
  · subst hnil
    exact ⟨List.Perm.refl _, by simp, by simp, rfl⟩
  · have hT : naoEspecial "Triagem" = false := by decide
    have hF : naoEspecial "Faturamento" = false := by decide
    unfold ordenar_procedimentos
    rw [if_neg hnil]
    by_cases ht : "Triagem" ∈ l <;> by_cases hf : "Faturamento" ∈ l
    · -- both present
      simp only [if_pos ht, if_pos hf]
      have hfe : "Faturamento" ∈ l.erase "Triagem" :=
        (List.mem_erase_of_ne (by decide)).mpr hf
      refine ⟨?_, ?_, ?_, ?_⟩
      · have p1 : l.Perm ("Triagem" :: l.erase "Triagem") := List.perm_cons_erase ht
        have p2 : (l.erase "Triagem").Perm
            ("Faturamento" :: (l.erase "Triagem").erase "Faturamento") :=
          List.perm_cons_erase hfe
        have p3 : ("Triagem" :: (l.erase "Triagem").erase "Faturamento" ++
            ["Faturamento"]).Perm
            ("Triagem" :: "Faturamento" :: (l.erase "Triagem").erase "Faturamento") := by
          rw [List.cons_append]
          exact (List.perm_append_singleton _ _).cons _
        exact (p3.trans ((p2.cons _).symm)).trans p1.symm
      · intro _
        rw [List.cons_append, List.head?_cons]
      · intro _
        exact List.getLast?_concat _
      · rw [List.filter_append, List.filter_cons_of_neg (by simp [hT]),
          List.filter_cons_of_neg (by simp [hF]),
          filter_erase_of_neg hF, filter_erase_of_neg hT, List.filter_nil,
          List.append_nil]
    · -- only Triagem
      simp only [if_pos ht, if_neg hf]
      refine ⟨(List.perm_cons_erase ht).symm, ?_, ?_, ?_⟩
      · intro _; rw [List.head?_cons]
      · intro hmem; exact absurd hmem hf
      · rw [List.filter_cons_of_neg (by simp [hT]), filter_erase_of_neg hT]
    · -- only Faturamento
      simp only [if_neg ht, if_pos hf]
      refine ⟨?_, ?_, ?_, ?_⟩
      · exact (List.perm_append_singleton _ _).trans (List.perm_cons_erase hf).symm
      · intro hmem; exact absurd hmem ht
      · intro _; exact List.getLast?_concat _
      · rw [List.filter_append, List.filter_cons_of_neg (by simp [hF]),
          filter_erase_of_neg hF, List.filter_nil, List.append_nil]
    · -- neither
      simp only [if_neg ht, if_neg hf]
      refine ⟨List.Perm.refl _, fun hmem => absurd hmem ht,
        fun hmem => absurd hmem hf, trivial⟩

/-- Witness for C4 at a concrete four-element selection. -/
theorem ordenar_spec_witness :
    (ordenar_procedimentos ["Audiometria", "Faturamento", "Glicemia", "Triagem"]).head? =
      some "Triagem" ∧
    (ordenar_procedimentos ["Audiometria", "Faturamento", "Glicemia", "Triagem"]).getLast? =
      some "Faturamento" :=
  ⟨(ordenar_spec ["Audiometria", "Faturamento", "Glicemia", "Triagem"]).2.1 (by decide),
   (ordenar_spec ["Audiometria", "Faturamento", "Glicemia", "Triagem"]).2.2.1 (by decide)⟩

theorem dictGet_dictDel_self (k : String) :
    ∀ db : CatalogoDb, dictGet k (dictDel db k) = none
  | [] => rfl
  | (k', v) :: t => by
    by_cases h : k' = k
    · simpa [dictDel, h] using dictGet_dictDel_self k t
    · simpa [dictDel, dictGet, h] using dictGet_dictDel_self k t

theorem dictGet_dictDel_ne (k k' : String) (h : k ≠ k') :
    ∀ db : CatalogoDb, dictGet k (dictDel db k') = dictGet k db
  | [] => rfl
  | (k'', v) :: t => by
    by_cases h2 : k'' = k' <;> by_cases h3 : k'' = k <;>
      simp_all [dictDel, dictGet, dictGet_dictDel_ne k k' h t]

theorem dictGet_dictSet_self (k : String) (v : Bool) :
    ∀ db : CatalogoDb, dictGet k (dictSet db k v) = some v
  | [] => by simp [dictSet, dictGet]
  | (k', w) :: t => by
    by_cases h : k' = k
    · simp [dictSet, h, dictGet]
    · simp [dictSet, h, dictGet, dictGet_dictSet_self k v t]

theorem dictGet_dictSet_ne (k k' : String) (v : Bool) (h : k ≠ k') :
    ∀ db : CatalogoDb, dictGet k (dictSet db k' v) = dictGet k db
  | [] => by simp [dictSet, dictGet, Ne.symm h]
  | (k'', w) :: t => by
    by_cases h2 : k'' = k' <;> by_cases h3 : k'' = k <;>
      simp_all [dictSet, dictGet, Ne.symm h, dictGet_dictSet_ne k k' v h t]

theorem dictGet_append_of_some (k : String) (v : Bool) :
    ∀ l1 l2 : CatalogoDb, dictGet k l1 = some v → dictGet k (l1 ++ l2) = some v
  | [], l2, h => by simp [dictGet] at h
  | (k', w) :: t, l2, h => by
    by_cases h2 : k' = k <;>
      simp_all [dictGet, dictGet_append_of_some k v t l2]

theorem dictGet_append_of_none (k : String) :
    ∀ l1 l2 : CatalogoDb, dictGet k l1 = none → dictGet k (l1 ++ l2) = dictGet k l2
  | [], l2, h => rfl
  | (k', w) :: t, l2, h => by
    by_cases h2 : k' = k <;>
      simp_all [dictGet, dictGet_append_of_none k t l2]

theorem dictMem_append_left (l1 l2 : CatalogoDb) (x : String)
    (h : dictMem l1 x = true) : dictMem (l1 ++ l2) x = true := by
  obtain ⟨v, hv⟩ := Option.isSome_iff_exists.mp h
  simp [dictMem, dictGet_append_of_some x v l1 l2 hv]

theorem dictMem_append_self (l : CatalogoDb) (x : String) (v : Bool) :
    dictMem (l ++ [(x, v)]) x = true := by
  cases hg : dictGet x l with
  | some w => simp [dictMem, dictGet_append_of_some x w l [(x, v)] hg]
  | none => simp [dictMem, dictGet_append_of_none x l [(x, v)] hg, dictGet]



/-- C2 counterexample: renaming "A" to the already-existing key "B" must,
per the claim, fail and leave the state unchanged; instead
`editar_procedimento_db` returns true and rewrites the catalog. -/
theorem editar_contraexemplo :
    (editar_procedimento_db [("A", false), ("B", true)] [] "A" "B").1 = true ∧
    (editar_procedimento_db [("A", false), ("B", true)] [] "A" "B").2.1 ≠
      [("A", false), ("B", true)] := by decide

/-- C2 (amended): rename fails (returns false with the state unchanged)
exactly when the old name is absent or the new name is empty; otherwise it
succeeds even when the new name already exists, moving the payload onto the
new key (overwriting any previous payload there), removing the old key, and
replacing the first occurrence of the old name in the mandatory list in
place. -/
theorem editar_amended (db : CatalogoDb) (obrigatorios : List String)
    (antigo novo : String) :
    (dictMem db antigo = false ∨ novo = "" →
      editar_procedimento_db db obrigatorios antigo novo = (false, db, obrigatorios)) ∧
    (dictMem db antigo = true → novo ≠ "" →
      (editar_procedimento_db db obrigatorios antigo novo).1 = true ∧
      dictGet novo (editar_procedimento_db db obrigatorios antigo novo).2.1 =
        dictGet antigo db ∧
      (antigo ≠ novo →
        dictMem (editar_procedimento_db db obrigatorios antigo novo).2.1 antigo = false) ∧
      (antigo ∈ obrigatorios →
        (editar_procedimento_db db obrigatorios antigo novo).2.2 =
          obrigatorios.set (obrigatorios.indexOf antigo) novo) ∧
      (antigo ∉ obrigatorios →
        (editar_procedimento_db db obrigatorios antigo novo).2.2 = obrigatorios)) := by
  constructor
  · intro h
    unfold editar_procedimento_db
    rw [if_neg]
    rintro ⟨hmem, hne⟩
    rcases h with h | h
    · rw [hmem] at h
      exact Bool.true_eq_false ▸ h
    · exact hne h
  · intro hmem hne
    obtain ⟨dados, hdados⟩ := Option.isSome_iff_exists.mp hmem
    unfold editar_procedimento_db
    rw [if_pos ⟨hmem, hne⟩]
    refine ⟨rfl, ?_, ?_, ?_, ?_⟩
    · show dictGet novo (dictSet (dictDel db antigo) novo _) = dictGet antigo db
      rw [dictGet_dictSet_self, hdados]
      rfl
    · intro hanti
      show dictMem (dictSet (dictDel db antigo) novo _) antigo = false
      rw [dictMem, dictGet_dictSet_ne antigo novo _ hanti,
        dictGet_dictDel_self]
      rfl
    · intro hin
      simp only [if_pos hin]
    · intro hnin
      simp only [if_neg hnin]

/-- Witness for the amended C2: a successful rename and a failing rename at
concrete states. -/
theorem editar_amended_witness :
    (editar_procedimento_db [("A", false)] ["A"] "A" "C").1 = true ∧
    editar_procedimento_db [("X", true)] [] "A" "C" = (false, [("X", true)], []) :=
  ⟨((editar_amended [("A", false)] ["A"] "A" "C").2 (by decide) (by decide)).1,
   (editar_amended [("X", true)] [] "A" "C").1 (Or.inl (by decide))⟩

theorem mem_insereObrigatorio_self (acc : List String) (b : String) :
    b ∈ insereObrigatorio acc b := by
  by_cases h : b ∈ acc <;> simp [insereObrigatorio, h]

theorem mem_insereObrigatorio_of_mem (acc : List String) (b x : String)
    (h : x ∈ acc) : x ∈ insereObrigatorio acc b := by
  by_cases hb : b ∈ acc <;> simp [insereObrigatorio, hb, h]

theorem dictMem_insereProcedimento_self (acc : CatalogoDb) (b : String) :
    dictMem (insereProcedimento acc b) b = true := by
  by_cases h : dictMem acc b
  · simp [insereProcedimento, h]
  · simpa [insereProcedimento, h] using dictMem_append_self acc b false

theorem dictMem_insereProcedimento_of_mem (acc : CatalogoDb) (b x : String)
    (h : dictMem acc x = true) : dictMem (insereProcedimento acc b) x = true := by
  by_cases hb : dictMem acc b
  · simpa [insereProcedimento, hb] using h
  · simpa [insereProcedimento, hb] using
      dictMem_append_left acc [(b, false)] x h

theorem mem_set_indexOf_false {l : List String} {a b q : String}
    (hnd : l.Nodup) (ha : a ∈ l) (hq : q ∈ l.set (l.indexOf a) b)
    (hqa : q = a) (hab : a ≠ b) : False := by
  subst hqa
  have hidx : l.indexOf q < l.length := List.indexOf_lt_length.mpr ha
  obtain ⟨j, hj, hget⟩ := List.mem_iff_getElem.mp hq
  rw [List.length_set] at hj
  rw [List.getElem_set] at hget
  by_cases hji : l.indexOf q = j
  · rw [if_pos hji] at hget
    exact hab hget.symm
  · rw [if_neg hji] at hget
    have : j = l.indexOf q := by
      have := (hnd.getElem_inj_iff).mp
        (hget.trans (List.getElem_indexOf hidx).symm)
      exact this
    exact hji this.symm

/-- C3 counterexample: toggling a name that is not a catalog key adds it to
the mandatory list, breaking the claimed invariant on a reconciled baseline
state. -/
theorem invariante_contraexemplo :
    "Audiometria" ∈ (alternar_obrigatorio
        ["Exame Clínico", "Faturamento", "Triagem"] "Audiometria").1 ∧
    ¬ invarianteObrigatorios
        [("Exame Clínico", false), ("Faturamento", false), ("Triagem", false)]
        (alternar_obrigatorio
          ["Exame Clínico", "Faturamento", "Triagem"] "Audiometria").1 := by
  decide

/-- C3 (amended): startup reconciliation guarantees the three baseline names
exist in both the mandatory list and the catalog; `adicionar_procedimento`
preserves the invariant that every mandatory name is a catalog key, and
`editar_procedimento_db` preserves it for duplicate-free mandatory lists.
(`alternar_obrigatorio` and `remover_procedimento_db` do not maintain it,
as the counterexample shows.) -/
theorem invariante_amended :
    (∀ (db : CatalogoDb) (obrigatorios : List String),
      ∀ b ∈ obrigatoriosPadrao,
        b ∈ (garantir_procedimentos_obrigatorios db obrigatorios).2 ∧
        dictMem (garantir_procedimentos_obrigatorios db obrigatorios).1 b = true) ∧
    (∀ (db : CatalogoDb) (obrigatorios : List String) (p : String),
      invarianteObrigatorios db obrigatorios →
      invarianteObrigatorios (adicionar_procedimento db p).2 obrigatorios) ∧
    (∀ (db : CatalogoDb) (obrigatorios : List String) (antigo novo : String),
      invarianteObrigatorios db obrigatorios → obrigatorios.Nodup →
      invarianteObrigatorios (editar_procedimento_db db obrigatorios antigo novo).2.1
        (editar_procedimento_db db obrigatorios antigo novo).2.2) := by
  refine ⟨?_, ?_, ?_⟩
  · intro db obrigatorios b hb
    simp only [obrigatoriosPadrao, List.mem_cons, List.not_mem_nil, or_false] at hb
    unfold garantir_procedimentos_obrigatorios
    simp only [obrigatoriosPadrao, List.foldl_cons, List.foldl_nil]
    rcases hb with h | h | h <;> subst h
    · exact ⟨mem_insereObrigatorio_of_mem _ _ _
          (mem_insereObrigatorio_of_mem _ _ _ (mem_insereObrigatorio_self _ _)),
        dictMem_insereProcedimento_of_mem _ _ _
          (dictMem_insereProcedimento_of_mem _ _ _
            (dictMem_insereProcedimento_self _ _))⟩
    · exact ⟨mem_insereObrigatorio_of_mem _ _ _ (mem_insereObrigatorio_self _ _),
        dictMem_insereProcedimento_of_mem _ _ _
          (dictMem_insereProcedimento_self _ _)⟩
    · exact ⟨mem_insereObrigatorio_self _ _,
        dictMem_insereProcedimento_self _ _⟩
  · intro db obrigatorios p hinv q hq
    unfold adicionar_procedimento
    split_ifs with h
    · exact dictMem_append_left db [(p, false)] q (hinv q hq)
    · exact hinv q hq
  · intro db obrigatorios antigo novo hinv hnd q hq
    unfold editar_procedimento_db at hq ⊢
    split_ifs at hq ⊢ with hg hao
    · dsimp only at hq ⊢
      by_cases hqn : q = novo
      · subst hqn
        simp [dictMem, dictGet_dictSet_self]
      · rcases List.mem_or_eq_of_mem_set hq with hqo | hqe
        · by_cases hqa : q = antigo
          · exact absurd (mem_set_indexOf_false hnd hao hq hqa
              (fun hh => hqn (hqa.trans hh))) not_false
          · have hm := hinv q hqo
            simp only [dictMem] at hm ⊢
            rw [dictGet_dictSet_ne q novo _ hqn,
              dictGet_dictDel_ne q antigo hqa]
            exact hm
        · exact absurd hqe hqn
    · dsimp only at hq ⊢
      by_cases hqn : q = novo
      · subst hqn
        simp [dictMem, dictGet_dictSet_self]
      · have hqa : q ≠ antigo := fun h => hao (h ▸ hq)
        have hm := hinv q hq
        simp only [dictMem] at hm ⊢
        rw [dictGet_dictSet_ne q novo _ hqn,
          dictGet_dictDel_ne q antigo hqa]
        exact hm
    · dsimp only at hq ⊢
      exact hinv q hq

/-- Witness for the amended C3 at concrete states. -/
theorem invariante_amended_witness :
    ("Triagem" ∈ (garantir_procedimentos_obrigatorios [] []).2 ∧
      dictMem (garantir_procedimentos_obrigatorios [] []).1 "Triagem" = true) ∧
    invarianteObrigatorios
      (adicionar_procedimento [("Triagem", false)] "Novo").2 ["Triagem"] :=
  ⟨invariante_amended.1 [] [] "Triagem" (by decide),
   invariante_amended.2.1 [("Triagem", false)] ["Triagem"] "Novo"
     (by decide)⟩

theorem espaco_disponivel_pos : (0 : ℚ) < espaco_disponivel := by
  norm_num [espaco_disponivel, y_inicio, y_final, alturaA4]

theorem calcular_espaco_necessario_foldl (db : CatalogoDb) :
    ∀ (procs : List String) (init : ℚ),
      procs.foldl (fun acc proc => acc + 25 +
        (if procedimento_requer_laudo db proc then 20 else 0) + 10) init =
      init + 35 * procs.length +
        20 * (procs.countP (fun p => procedimento_requer_laudo db p))
  | [], init => by simp
  | p :: t, init => by
    rw [List.foldl_cons, calcular_espaco_necessario_foldl db t _]
    by_cases h : procedimento_requer_laudo db p
    · simp [h, List.countP_cons]
      ring
    · simp [h, List.countP_cons]
      ring

theorem calcular_espaco_necessario_eq (db : CatalogoDb) (procs : List String) :
    calcular_espaco_necessario db procs =
      35 * procs.length +
        20 * (procs.countP (fun p => procedimento_requer_laudo db p)) := by
  unfold calcular_espaco_necessario
  rw [calcular_espaco_necessario_foldl db procs 0, zero_add]

theorem espaco_consumido_foldl (db : CatalogoDb) (t : Tamanhos) :
    ∀ (procs : List String) (init : ℤ),
      procs.foldl (fun acc proc => acc + t.espaco_procedimento +
        (if procedimento_requer_laudo db proc then t.espaco_subitem else 0) +
        t.espaco_extra) init =
      init + procs.length * (t.espaco_procedimento + t.espaco_extra) +
        (procs.countP (fun p => procedimento_requer_laudo db p)) * t.espaco_subitem
  | [], init => by simp
  | p :: ps, init => by
    rw [List.foldl_cons, espaco_consumido_foldl db t ps _]
    by_cases h : procedimento_requer_laudo db p
    · simp [h, List.countP_cons]
      ring
    · simp [h, List.countP_cons]
      ring

theorem espaco_consumido_eq (db : CatalogoDb) (procs : List String)
    (t : Tamanhos) :
    espaco_consumido db procs t =
      procs.length * (t.espaco_procedimento + t.espaco_extra) +
        (procs.countP (fun p => procedimento_requer_laudo db p)) * t.espaco_subitem := by
  unfold espaco_consumido
  rw [espaco_consumido_foldl db t procs 0, zero_add]



/-- C1 (amended): when the nominal required space exceeds the available
space, all computed font sizes, checkbox sizes and row spacings are at
least their per-element floors; and whenever none of the three row-spacing
values is clamped at its floor, the total height consumed by drawing every
row is at most the available space.  (When the floors clamp, the total can
exceed the available space; see the counterexample.) -/
theorem gerar_pdf_tamanhos_amended (db : CatalogoDb) (procs : List String)
    (_hne : procs ≠ [])
    (hexc : calcular_espaco_necessario db procs > espaco_disponivel) :
    (10 ≤ (calcular_tamanhos db procs).fonte_numero ∧
     9 ≤ (calcular_tamanhos db procs).fonte_procedimento ∧
     8 ≤ (calcular_tamanhos db procs).fonte_subitem ∧
     18 ≤ (calcular_tamanhos db procs).espaco_procedimento ∧
     15 ≤ (calcular_tamanhos db procs).espaco_subitem ∧
     5 ≤ (calcular_tamanhos db procs).espaco_extra ∧
     12 ≤ (calcular_tamanhos db procs).tamanho_checkbox ∧
     10 ≤ (calcular_tamanhos db procs).tamanho_subcheckbox) ∧
    (18 ≤ ⌊25 * (espaco_disponivel / calcular_espaco_necessario db procs)⌋ →
     15 ≤ ⌊20 * (espaco_disponivel / calcular_espaco_necessario db procs)⌋ →
     5 ≤ ⌊10 * (espaco_disponivel / calcular_espaco_necessario db procs)⌋ →
     ((espaco_consumido db procs (calcular_tamanhos db procs) : ℤ) : ℚ) ≤
       espaco_disponivel) := by
  have hpos : (0 : ℚ) < espaco_disponivel := espaco_disponivel_pos
  have hnpos : (0 : ℚ) < calcular_espaco_necessario db procs := hpos.trans hexc
  have ht : calcular_tamanhos db procs =
      { fonte_numero :=
          max 10 ⌊14 * (espaco_disponivel / calcular_espaco_necessario db procs)⌋
        fonte_procedimento :=
          max 9 ⌊12 * (espaco_disponivel / calcular_espaco_necessario db procs)⌋
        fonte_subitem :=
          max 8 ⌊10 * (espaco_disponivel / calcular_espaco_necessario db procs)⌋
        espaco_procedimento :=
          max 18 ⌊25 * (espaco_disponivel / calcular_espaco_necessario db procs)⌋
        espaco_subitem :=
          max 15 ⌊20 * (espaco_disponivel / calcular_espaco_necessario db procs)⌋
        espaco_extra :=
          max 5 ⌊10 * (espaco_disponivel / calcular_espaco_necessario db procs)⌋
        tamanho_checkbox :=
          max 12 ⌊15 * (espaco_disponivel / calcular_espaco_necessario db procs)⌋
        tamanho_subcheckbox :=
          max 10 ⌊12 * (espaco_disponivel / calcular_espaco_necessario db procs)⌋ } := by
    unfold calcular_tamanhos
    rw [if_pos hexc]
  constructor
  · rw [ht]
    exact ⟨le_max_left _ _, le_max_left _ _, le_max_left _ _, le_max_left _ _,
      le_max_left _ _, le_max_left _ _, le_max_left _ _, le_max_left _ _⟩
  · intro h25 h20 h5
    rw [espaco_consumido_eq, ht]
    have hep : max 18 ⌊25 * (espaco_disponivel / calcular_espaco_necessario db procs)⌋ =
        ⌊25 * (espaco_disponivel / calcular_espaco_necessario db procs)⌋ :=
      max_eq_right h25
    have hes : max 15 ⌊20 * (espaco_disponivel / calcular_espaco_necessario db procs)⌋ =
        ⌊20 * (espaco_disponivel / calcular_espaco_necessario db procs)⌋ :=
      max_eq_right h20
    have hee : max 5 ⌊10 * (espaco_disponivel / calcular_espaco_necessario db procs)⌋ =
        ⌊10 * (espaco_disponivel / calcular_espaco_necessario db procs)⌋ :=
      max_eq_right h5
    dsimp only
    rw [hep, hes, hee]
    push_cast
    have hfl25 : (⌊25 * (espaco_disponivel / calcular_espaco_necessario db procs)⌋ : ℚ) ≤
        25 * (espaco_disponivel / calcular_espaco_necessario db procs) := Int.floor_le _
    have hfl20 : (⌊20 * (espaco_disponivel / calcular_espaco_necessario db procs)⌋ : ℚ) ≤
        20 * (espaco_disponivel / calcular_espaco_necessario db procs) := Int.floor_le _
    have hfl10 : (⌊10 * (espaco_disponivel / calcular_espaco_necessario db procs)⌋ : ℚ) ≤
        10 * (espaco_disponivel / calcular_espaco_necessario db procs) := Int.floor_le _
    have hlen0 : (0 : ℚ) ≤ (procs.length : ℚ) := by positivity
    have hcnt0 : (0 : ℚ) ≤
        ((procs.countP (fun p => procedimento_requer_laudo db p)) : ℚ) := by positivity
    calc (procs.length : ℚ) *
            ((⌊25 * (espaco_disponivel / calcular_espaco_necessario db procs)⌋ : ℚ) +
             (⌊10 * (espaco_disponivel / calcular_espaco_necessario db procs)⌋ : ℚ)) +
          ((procs.countP (fun p => procedimento_requer_laudo db p)) : ℚ) *
            (⌊20 * (espaco_disponivel / calcular_espaco_necessario db procs)⌋ : ℚ)
        ≤ (procs.length : ℚ) *
            (25 * (espaco_disponivel / calcular_espaco_necessario db procs) +
             10 * (espaco_disponivel / calcular_espaco_necessario db procs)) +
          ((procs.countP (fun p => procedimento_requer_laudo db p)) : ℚ) *
            (20 * (espaco_disponivel / calcular_espaco_necessario db procs)) := by
          gcongr
      _ = (35 * procs.length +
            20 * (procs.countP (fun p => procedimento_requer_laudo db p))) *
            (espaco_disponivel / calcular_espaco_necessario db procs) := by
          ring
      _ = calcular_espaco_necessario db procs *
            (espaco_disponivel / calcular_espaco_necessario db procs) := by
          rw [← calcular_espaco_necessario_eq]
      _ = espaco_disponivel := by
          field_simp



/-- Thirty distinct procedure names, none of which requires a report in the
empty catalog. -/
def procedimentosLongos : List String :=
  (List.range 30).map (fun i => toString i)

/-- Fifteen distinct procedure names. -/
def procedimentosMedios : List String :=
  (List.range 15).map (fun i => toString i)

theorem countP_laudo_vazio (procs : List String) :
    procs.countP (fun p => procedimento_requer_laudo [] p) = 0 :=
  List.countP_eq_zero.mpr (fun p _ => by
    simp [procedimento_requer_laudo, dictGet])

theorem nec_longos_eq :
    calcular_espaco_necessario [] procedimentosLongos = 1050 := by
  rw [calcular_espaco_necessario_eq, countP_laudo_vazio]
  simp [procedimentosLongos]
  norm_num

theorem nec_longos_gt :
    calcular_espaco_necessario [] procedimentosLongos > espaco_disponivel := by
  rw [nec_longos_eq]
  norm_num [espaco_disponivel, y_inicio, y_final, alturaA4]

theorem nec_medios_eq :
    calcular_espaco_necessario [] procedimentosMedios = 525 := by
  rw [calcular_espaco_necessario_eq, countP_laudo_vazio]
  simp [procedimentosMedios]
  norm_num

theorem nec_medios_gt :
    calcular_espaco_necessario [] procedimentosMedios > espaco_disponivel := by
  rw [nec_medios_eq]
  norm_num [espaco_disponivel, y_inicio, y_final, alturaA4]

theorem floor25_medios :
    18 ≤ ⌊25 * (espaco_disponivel /
      calcular_espaco_necessario [] procedimentosMedios)⌋ := by
  rw [nec_medios_eq, Int.le_floor]
  norm_num [espaco_disponivel, y_inicio, y_final, alturaA4]

theorem floor20_medios :
    15 ≤ ⌊20 * (espaco_disponivel /
      calcular_espaco_necessario [] procedimentosMedios)⌋ := by
  rw [nec_medios_eq, Int.le_floor]
  norm_num [espaco_disponivel, y_inicio, y_final, alturaA4]

theorem floor10_medios :
    5 ≤ ⌊10 * (espaco_disponivel /
      calcular_espaco_necessario [] procedimentosMedios)⌋ := by
  rw [nec_medios_eq, Int.le_floor]
  norm_num [espaco_disponivel, y_inicio, y_final, alturaA4]

theorem floor25_longos :
    ⌊25 * (espaco_disponivel / (1050 : ℚ))⌋ = 11 := by
  rw [Int.floor_eq_iff]
  norm_num [espaco_disponivel, y_inicio, y_final, alturaA4]

theorem floor10_longos :
    ⌊10 * (espaco_disponivel / (1050 : ℚ))⌋ = 4 := by
  rw [Int.floor_eq_iff]
  norm_num [espaco_disponivel, y_inicio, y_final, alturaA4]

/-- C1 counterexample: thirty report-free procedures need 1050 points
nominally, scaling clamps both row spacings at their floors (18 + 5 per
row), and the 690 points consumed exceed the roughly 491.9 points
available, so the one-page-fit conjunct of the claim fails. -/
theorem gerar_pdf_tamanhos_contraexemplo :
    procedimentosLongos ≠ [] ∧
    calcular_espaco_necessario [] procedimentosLongos > espaco_disponivel ∧
    ¬ (((espaco_consumido [] procedimentosLongos
          (calcular_tamanhos [] procedimentosLongos) : ℤ) : ℚ) ≤
        espaco_disponivel) := by
  refine ⟨by simp [procedimentosLongos], nec_longos_gt, ?_⟩
  have hep : (calcular_tamanhos [] procedimentosLongos).espaco_procedimento = 18 := by
    unfold calcular_tamanhos
    rw [if_pos nec_longos_gt]
    dsimp only
    rw [nec_longos_eq, floor25_longos]
    norm_num
  have hee : (calcular_tamanhos [] procedimentosLongos).espaco_extra = 5 := by
    unfold calcular_tamanhos
    rw [if_pos nec_longos_gt]
    dsimp only
    rw [nec_longos_eq, floor10_longos]
    norm_num
  rw [espaco_consumido_eq, countP_laudo_vazio, hep, hee]
  simp only [procedimentosLongos, List.length_map, List.length_range]
  push_cast
  norm_num [espaco_disponivel, y_inicio, y_final, alturaA4]

/-- Witness for the amended C1: fifteen procedures trigger scaling without
hitting the spacing floors, and the drawn rows fit the available space. -/
theorem gerar_pdf_tamanhos_amended_witness :
    ((espaco_consumido [] procedimentosMedios
        (calcular_tamanhos [] procedimentosMedios) : ℤ) : ℚ) ≤
      espaco_disponivel :=
  (gerar_pdf_tamanhos_amended [] procedimentosMedios
      (by simp [procedimentosMedios]) nec_medios_gt).2
    floor25_medios floor20_medios floor10_medios

end CheckList
